import Mathlib

/-!
Verification of the Focus Flow scheduling core.

The repository's scheduling logic lives in utils/scheduler.js: a single
function generatePlan(items, availability) that walks the input items in
order, schedules each one 30 minutes after a cursor that starts at the
wall-clock instant of the call, and advances the cursor by the item's
duration plus 15 minutes.  Time is modelled in minutes as integers; the
wall-clock instant at the moment of the call is made an explicit `clock`
parameter.  The spaced-repetition mastery model and the rebalancer are
described in the specification but absent from the sources; they are
modelled from the spec where a claim needs them, and are clearly marked.
-/

/-- A task record as submitted to pages/api/generate-plan.js:
`\x7btitle, durationMins, dueDate, topic, importance\x7d`.  `durationMins` and
`dueDate` are optional in the JS payload, hence `Option`.  Timestamps and
durations are minutes. -/
structure Item where
  title : String
  topic : String
  durationMins : Option Int
  dueDate : Option Int
  importance : Int
deriving DecidableEq, Repr

/-- An availability slot `\x7bstart, end\x7d` from the scheduler's comment
`availability: \x7b slots: [\x7bstart, end\x7d], dailyStudyMins \x7d`.  The `end`
field is named `stop` because `end` is a reserved word in Lean. -/
structure Window where
  start : Int
  stop : Int
deriving DecidableEq, Repr

/-- The availability argument of generatePlan, per the comment in
utils/scheduler.js: `\x7b slots: [\x7bstart, end\x7d], dailyStudyMins \x7d`. -/
structure Availability where
  slots : List Window
  dailyStudyMins : Int
deriving DecidableEq, Repr

/-- An output record of generatePlan: the input item spread unchanged
(`...it`) with the single added field `scheduledFor`. -/
structure PlannedTask where
  item : Item
  scheduledFor : Int
deriving DecidableEq, Repr

/-- The effective duration `it.durationMins || 60` used by the scheduler:
a missing (`undefined`) or zero (falsy) duration becomes 60; any other
value, including a negative one, is kept. -/
def effDur : Option Int → Int
  | none => 60
  | some d => if d = 0 then 60 else d

/-- The loop body of generatePlan: for each item, `scheduled = cursor + 30`
is recorded and the cursor moves to `scheduled + dur + 15` (written here
with `scheduled` inlined). -/
def planLoop (cursor : Int) : List Item → List PlannedTask
  | [] => []
  | it :: rest =>
      ⟨it, cursor + 30⟩ ::
        planLoop (cursor + 30 + effDur it.durationMins + 15) rest

/-- generatePlan from utils/scheduler.js.  The JS function takes only
(items, availability); its cursor starts at `new Date()`, the wall clock
at the moment of the call, which the embedding passes as the explicit
`clock` parameter.  The availability argument is never read by the body. -/
def generatePlan (items : List Item) (availability : Availability) (clock : Int) :
    List PlannedTask :=
  planLoop clock items

section MasteryModel

/-- Task outcomes fed to the mastery model (spec 4.1/4.5). -/
inductive Outcome where
  | OnTime
  | Late
  | Missed
deriving DecidableEq, Repr

/-- Modelled from the spec: the per-topic mastery record of the Mastery
Model, absent from the sources (the repo only stores a flat `spacedScore`
on tasks and has no mastery-update code).  Mastery scores use exact
rational arithmetic for the spec's decimal constants. -/
structure TopicMasteryRecord where
  masteryScore : ℚ
  currentIntervalDays : ℕ
deriving DecidableEq, Repr

/-- Modelled from the spec: the defaults `masteryScore=0.3`,
`currentIntervalDays=1` with which a topic record is created. -/
def defaultMastery : TopicMasteryRecord :=
  { masteryScore := 0.3, currentIntervalDays := 1 }

/-- Modelled from the spec: `recordOutcome` of the Mastery Model, absent
from the sources.  On OnTime the two assignments are sequential, so the
interval formula reads the already-updated mastery score.  `ceil` is
`Nat.ceil`; the spec's `floor(x / 2)` on a natural interval is natural
division. -/
def recordOutcome (r : TopicMasteryRecord) (o : Outcome) : TopicMasteryRecord :=
  match o with
  | .OnTime =>
      let m := min 1 (r.masteryScore + 0.15)
      { masteryScore := m
        currentIntervalDays := Nat.ceil ((r.currentIntervalDays : ℚ) * (1.3 + m)) }
  | .Late => { r with masteryScore := max 0 (r.masteryScore - 0.05) }
  | .Missed =>
      { masteryScore := max 0 (r.masteryScore - 0.2)
        currentIntervalDays := max 1 (r.currentIntervalDays / 2) }

/-- Modelled from the spec: the makeup session the Rebalancer creates for
a missed task — same topic and duration, importance boosted by 2 and
capped at 10. -/
def makeupTask (t : Item) : Item :=
  { t with importance := min 10 (t.importance + 2) }

/-- Modelled from the spec: the Rebalancer's reaction to a Missed task —
`recordOutcome(topic, Missed)` on the topic's mastery record and insertion
of the makeup session into the pending pool for the next plan. -/
def applyMissed (r : TopicMasteryRecord) (t : Item) (pool : List Item) :
    TopicMasteryRecord × List Item :=
  (recordOutcome r .Missed, pool ++ [makeupTask t])

/-- Iterated OnTime outcomes starting from the default mastery record. -/
def onTimeIter : ℕ → TopicMasteryRecord
  | 0 => defaultMastery
  | k + 1 => recordOutcome (onTimeIter k) .OnTime

end MasteryModel

section ClaimFormalizations

/-- The Scenario A Math task of spec section 8: 60 minutes, due in 2 hours
(120 minutes from the reference instant 0), importance 5. -/
def taskMath : Item :=
  { title := "Math", topic := "Math", durationMins := some 60,
    dueDate := some 120, importance := 5 }

/-- The Scenario A Physics task: 60 minutes, due in 2 days (2880 minutes),
importance 1. -/
def taskPhysics : Item :=
  { title := "Physics", topic := "Physics", durationMins := some 60,
    dueDate := some 2880, importance := 1 }

/-- A second Math task, used to exhibit adjacent same-topic placements. -/
def taskMathTwo : Item :=
  { title := "Math II", topic := "Math", durationMins := some 60,
    dueDate := some 240, importance := 4 }

/-- Scenario A availability: one 150-minute window starting at the
reference instant 0. -/
def scenarioAvail : Availability := { slots := [⟨0, 150⟩], dailyStudyMins := 0 }

/-- Formalizes the spec's notion of a placement fitting inside an
availability window: the block `[scheduledFor, scheduledFor + dur)` is
contained in `[start, end)`. -/
abbrev fitsIn (p : PlannedTask) (w : Window) : Prop :=
  w.start ≤ p.scheduledFor ∧ p.scheduledFor + effDur p.item.durationMins ≤ w.stop

/-- A placement fits inside some supplied availability window. -/
abbrev fitsSomeWindow (p : PlannedTask) (a : Availability) : Prop :=
  ∃ w ∈ a.slots, fitsIn p w

/-- Total minutes the produced placements occupy (sum of the scheduler's
effective durations). -/
abbrev placedMinutes (plan : List PlannedTask) : Int :=
  (plan.map fun p => effDur p.item.durationMins).sum

/-- Total minutes of the supplied availability windows, per the spec's
capacity-conservation claim. -/
abbrev availMinutes (a : Availability) : Int :=
  (a.slots.map fun w => w.stop - w.start).sum

/-- Formalizes the interleaving claim over this code: any two adjacent
placements sharing a topic are allowed only when every input task has that
topic.  The claim's two escape hatches are instantiated for this code: no
other-topic task can fail to fit (availability is never consulted, every
task is placed) and no deferral mechanism exists, so a deferral count
never reaches `K`. -/
abbrev interleavingClaim (items : List Item) (a : Availability) (c : Int) : Prop :=
  ∀ pq ∈ (generatePlan items a c).zip (generatePlan items a c).tail,
    pq.1.item.topic = pq.2.item.topic → ∀ it ∈ items, it.topic = pq.1.item.topic

/-- Formalizes the claim that an availability window with start ≥ end is
rejected before any scheduling takes place: were it true, a call whose
availability contains such a window would produce no placements. -/
abbrev invalidWindowClaim (items : List Item) (a : Availability) (c : Int) : Prop :=
  (∃ w ∈ a.slots, w.stop ≤ w.start) → generatePlan items a c = []

end ClaimFormalizations

section PlanLemmas

/-- Projecting the placements back to their items recovers the input list:
generatePlan pushes `\x7b ...it, scheduledFor \x7d` once per item, in order. -/
theorem planLoop_map_item (items : List Item) (c : Int) :
    (planLoop c items).map PlannedTask.item = items := by
  induction items generalizing c with
  | nil => rfl
  | cons it rest ih => simp [planLoop, ih]

/-- Every placement produced with cursor `c` is scheduled at `c + 30` or
later, provided every effective duration is positive. -/
theorem planLoop_start_lb (items : List Item) (c : Int)
    (hv : ∀ it ∈ items, 0 < effDur it.durationMins) :
    ∀ p ∈ planLoop c items, c + 30 ≤ p.scheduledFor := by
  induction items generalizing c with
  | nil => simp [planLoop]
  | cons it rest ih =>
    intro p hp
    simp only [planLoop, List.mem_cons] at hp
    rcases hp with h | h
    · subst h; exact le_refl _
    · have he : 0 < effDur it.durationMins := hv it (by simp)
      have hrest := ih (c + 30 + effDur it.durationMins + 15)
        (fun x hx => hv x (by simp [hx])) p h
      omega

/-- Placements are produced in strictly increasing, gap-separated order:
each block ends before the next begins (positive durations assumed). -/
theorem planLoop_pairwise (items : List Item) (c : Int)
    (hv : ∀ it ∈ items, 0 < effDur it.durationMins) :
    List.Pairwise
      (fun p q => p.scheduledFor + effDur p.item.durationMins ≤ q.scheduledFor)
      (planLoop c items) := by
  induction items generalizing c with
  | nil => simp [planLoop]
  | cons it rest ih =>
    simp only [planLoop]
    refine List.Pairwise.cons ?_ (ih _ fun x hx => hv x (by simp [hx]))
    intro q hq
    have hlb := planLoop_start_lb rest (c + 30 + effDur it.durationMins + 15)
      (fun x hx => hv x (by simp [hx])) q hq
    show c + 30 + effDur it.durationMins ≤ q.scheduledFor
    omega

/-- Consecutive placements differ by the earlier item's effective duration
plus 45 minutes (15-minute cursor gap plus the 30-minute offset). -/
theorem planLoop_zip (items : List Item) (c : Int) :
    ∀ pq ∈ (planLoop c items).zip (planLoop c items).tail,
      pq.2.scheduledFor =
        pq.1.scheduledFor + effDur pq.1.item.durationMins + 45 := by
  induction items generalizing c with
  | nil => simp [planLoop]
  | cons it rest ih =>
    cases rest with
    | nil => simp [planLoop]
    | cons it2 rest2 =>
      intro pq hpq
      simp only [planLoop, List.tail_cons, List.zip_cons_cons, List.mem_cons] at hpq
      rcases hpq with h | h
      · subst h
        show c + 30 + effDur it.durationMins + 15 + 30 =
          c + 30 + effDur it.durationMins + 45
        omega
      · have := ih (c + 30 + effDur it.durationMins + 15) pq
        simp only [planLoop, List.tail_cons, List.zip_cons_cons] at this
        exact this (by simpa using h)

end PlanLemmas

section MasteryLemmas

/-- The OnTime branch strictly enlarges the interval whenever the mastery
score is nonnegative and the interval is at least one day. -/
theorem interval_lt_onTime (r : TopicMasteryRecord) (hm : 0 ≤ r.masteryScore)
    (hn : 1 ≤ r.currentIntervalDays) :
    r.currentIntervalDays < (recordOutcome r .OnTime).currentIntervalDays := by
  show r.currentIntervalDays <
    Nat.ceil ((r.currentIntervalDays : ℚ) * (1.3 + min 1 (r.masteryScore + 0.15)))
  rw [Nat.lt_ceil]
  have hm' : (0.15 : ℚ) ≤ min 1 (r.masteryScore + 0.15) :=
    le_min (by norm_num) (by linarith)
  have hn' : (1 : ℚ) ≤ (r.currentIntervalDays : ℚ) := by exact_mod_cast hn
  nlinarith [hm', hn']

/-- The OnTime branch keeps the mastery score nonnegative. -/
theorem mastery_nonneg_onTime (r : TopicMasteryRecord) (hm : 0 ≤ r.masteryScore) :
    0 ≤ (recordOutcome r .OnTime).masteryScore :=
  le_min (by norm_num) (by linarith)

/-- Along the iterated OnTime sequence the mastery score stays nonnegative
and the interval stays at least one day. -/
theorem onTimeIter_invariant (k : ℕ) :
    0 ≤ (onTimeIter k).masteryScore ∧ 1 ≤ (onTimeIter k).currentIntervalDays := by
  induction k with
  | zero =>
    constructor
    · norm_num [onTimeIter, defaultMastery]
    · norm_num [onTimeIter, defaultMastery]
  | succ k ih =>
    constructor
    · exact mastery_nonneg_onTime _ ih.1
    · have := interval_lt_onTime _ ih.1 ih.2
      show 1 ≤ (recordOutcome (onTimeIter k) .OnTime).currentIntervalDays
      omega

end MasteryLemmas

section Claims

/-- C1 (counterexample): generatePlan is not independent of the wall clock
at the moment of the call — the same items and availability produce
different placements at wall-clock instants 0 and 1, because the function
takes no `now` parameter and starts its cursor at `new Date()`. -/
theorem generatePlan_wallClock_dependent :
    generatePlan [taskMath] ⟨[], 0⟩ 0 ≠ generatePlan [taskMath] ⟨[], 0⟩ 1 := by
  decide

/-- C1 (amended): generatePlan is a pure function of the items and the
wall-clock instant of the call alone; the availability argument never
influences the output, so calls with identical items at the same instant
agree for any availabilities. -/
theorem generatePlan_pure_in_items_and_clock (items : List Item)
    (a₁ a₂ : Availability) (c : Int) :
    generatePlan items a₁ c = generatePlan items a₂ c := rfl

/-- C2 (counterexample): capacity conservation fails — with one 60-minute
task and no availability windows at all, generatePlan still places the
task, so the sum of placed durations (60) exceeds the total availability
(0), and no unplaceable list exists in the output. -/
theorem generatePlan_capacity_violated :
    ¬ placedMinutes (generatePlan [taskMath] ⟨[], 0⟩ 0) ≤ availMinutes ⟨[], 0⟩ := by
  decide

/-- C2 (amended): generatePlan never drops nor double-places a task —
every input task appears exactly as often among the placements as in the
input — but it ignores availability entirely, so the capacity bound fails
and no unplaceable list is returned. -/
theorem generatePlan_places_every_task_once (items : List Item)
    (a : Availability) (c : Int) (it : Item) :
    ((generatePlan items a c).map PlannedTask.item).count it = items.count it := by
  rw [show (generatePlan items a c).map PlannedTask.item = items from
    planLoop_map_item items c]

/-- C3: each task receives exactly one placement (one output record per
input record) and no two placements occupy overlapping time, hence in
particular none overlap within the same availability window; blocks are
`[scheduledFor, scheduledFor + dur)` and durations are assumed positive
per the data model (`durationMinutes > 0`). -/
theorem generatePlan_placements_disjoint (items : List Item) (a : Availability)
    (c : Int) (hv : ∀ it ∈ items, 0 < effDur it.durationMins) :
    (generatePlan items a c).length = items.length ∧
    List.Pairwise
      (fun p q =>
        p.scheduledFor + effDur p.item.durationMins ≤ q.scheduledFor ∨
        q.scheduledFor + effDur q.item.durationMins ≤ p.scheduledFor)
      (generatePlan items a c) := by
  constructor
  · have h := congrArg List.length (planLoop_map_item items c)
    simpa using h
  · exact (planLoop_pairwise items c hv).imp fun h => Or.inl h

/-- C3 (witness): the disjointness theorem evaluated on the Scenario A
inputs. -/
theorem generatePlan_placements_disjoint_witness :
    (∀ it ∈ [taskMath, taskPhysics], 0 < effDur it.durationMins) ∧
    ((generatePlan [taskMath, taskPhysics] scenarioAvail 0).length =
        [taskMath, taskPhysics].length ∧
      List.Pairwise
        (fun p q =>
          p.scheduledFor + effDur p.item.durationMins ≤ q.scheduledFor ∨
          q.scheduledFor + effDur q.item.durationMins ≤ p.scheduledFor)
        (generatePlan [taskMath, taskPhysics] scenarioAvail 0)) :=
  ⟨by decide,
   generatePlan_placements_disjoint [taskMath, taskPhysics] scenarioAvail 0
     (by decide)⟩

/-- C4 (counterexample): Scenario A does not come out as claimed — with
the 150-minute window, Math's block fits but Physics's block (135 to 195)
does not, and with the insertion order reversed the lower-urgency Physics
task is placed before the higher-urgency Math task, because generatePlan
never sorts by urgency. -/
theorem scenarioA_not_as_specified :
    ((generatePlan [taskMath, taskPhysics] scenarioAvail 0).map
        (fun p => decide (fitsSomeWindow p scenarioAvail)) = [true, false]) ∧
    ((generatePlan [taskPhysics, taskMath] scenarioAvail 0).map
        (fun p => p.item.title) = ["Physics", "Math"]) := by
  decide

/-- C4 (amended): generatePlan places tasks in input order, ignoring
urgency and availability; with the Scenario A tasks given as
[Math, Physics], Math is placed first at clock+30 and Physics second at
clock+135, and no unplaceable list is produced. -/
theorem scenarioA_input_order :
    generatePlan [taskMath, taskPhysics] scenarioAvail 0 =
      [⟨taskMath, 30⟩, ⟨taskPhysics, 135⟩] := by
  decide

/-- C5 (counterexample): the interleaving invariant fails — with two Math
tasks followed by a Physics task, the two Math placements are adjacent
although a task of another topic is pending, fittable (it is itself
placed), and was never deferred, since no deferral mechanism exists. -/
theorem interleaving_violated :
    ¬ interleavingClaim [taskMath, taskMathTwo, taskPhysics] ⟨[⟨0, 600⟩], 0⟩ 0 := by
  decide

/-- C5 (amended): generatePlan performs no topic interleaving at all — the
placements' topics are exactly the input tasks' topics in input order, so
two adjacent placements share a topic whenever two same-topic tasks are
adjacent in the input, regardless of other pending topics. -/
theorem generatePlan_topics_in_input_order (items : List Item)
    (a : Availability) (c : Int) :
    (generatePlan items a c).map (fun p => p.item.topic) = items.map Item.topic := by
  have h := planLoop_map_item items c
  calc (generatePlan items a c).map (fun p => p.item.topic)
      = ((planLoop c items).map PlannedTask.item).map Item.topic := by
        rw [List.map_map]; rfl
    _ = items.map Item.topic := by rw [h]

/-- C6: modelled from the spec — starting from the defaults
(masteryScore 0.3, interval 1 day), recordOutcome OnTime applies the
specified min/ceil updates, and every consecutive OnTime outcome strictly
increases currentIntervalDays. -/
theorem mastery_onTime_spec_and_monotone :
    defaultMastery = ⟨0.3, 1⟩ ∧
    (∀ r : TopicMasteryRecord,
      (recordOutcome r .OnTime).masteryScore = min 1 (r.masteryScore + 0.15) ∧
      (recordOutcome r .OnTime).currentIntervalDays =
        Nat.ceil ((r.currentIntervalDays : ℚ) *
          (1.3 + min 1 (r.masteryScore + 0.15)))) ∧
    (∀ k : ℕ,
      (onTimeIter k).currentIntervalDays < (onTimeIter (k + 1)).currentIntervalDays) :=
  ⟨rfl,
   fun _ => ⟨rfl, rfl⟩,
   fun k => interval_lt_onTime (onTimeIter k) (onTimeIter_invariant k).1
     (onTimeIter_invariant k).2⟩

/-- C7: modelled from the spec — on a Missed transition the topic's
mastery score drops to max(0, score − 0.2), its interval halves to
max(1, floor(interval / 2)), and a makeup task with the same topic and
duration and with importance min(10, original + 2) is appended to the
pending pool for the next plan. -/
theorem rebalancer_missed_spec (r : TopicMasteryRecord) (t : Item)
    (pool : List Item) :
    (applyMissed r t pool).1.masteryScore = max 0 (r.masteryScore - 0.2) ∧
    (applyMissed r t pool).1.currentIntervalDays =
      max 1 (r.currentIntervalDays / 2) ∧
    (applyMissed r t pool).2 = pool ++ [makeupTask t] ∧
    (makeupTask t).topic = t.topic ∧
    (makeupTask t).durationMins = t.durationMins ∧
    (makeupTask t).importance = min 10 (t.importance + 2) :=
  ⟨rfl, rfl, rfl, rfl, rfl, rfl⟩

/-- C8 (counterexample): an availability window with start ≥ end is not
rejected — with the invalid window (100, 50) present, generatePlan still
produces a placement, so scheduling does take place and no InvalidWindow
rejection exists. -/
theorem invalid_window_not_rejected :
    ¬ invalidWindowClaim [taskMath] ⟨[⟨100, 50⟩], 0⟩ 0 := by
  decide

/-- C8 (amended): no input validation exists; an invalid window (start ≥
end) is accepted, but because generatePlan never reads availability, such
a window never participates in scheduling — removing it (or replacing the
whole availability) leaves the plan unchanged. -/
theorem invalid_window_never_participates (items : List Item) (w : Window)
    (rest : List Window) (d₁ d₂ : Int) (c : Int) (hw : w.stop ≤ w.start) :
    generatePlan items ⟨w :: rest, d₁⟩ c = generatePlan items ⟨rest, d₂⟩ c := rfl

/-- C8 (witness): the amended theorem evaluated at the concrete invalid
window (100, 50). -/
theorem invalid_window_never_participates_witness :
    ((⟨100, 50⟩ : Window).stop ≤ (⟨100, 50⟩ : Window).start) ∧
    generatePlan [taskMath] ⟨[⟨100, 50⟩], 0⟩ 0 = generatePlan [taskMath] ⟨[], 7⟩ 0 :=
  ⟨by decide,
   invalid_window_never_participates [taskMath] ⟨100, 50⟩ [] 0 7 0 (by decide)⟩

/-- C9: generatePlan returns exactly one output record per input item, in
input order, and each output record carries its input item unchanged with
only `scheduledFor` added — projecting the placements to their items
recovers the input list verbatim. -/
theorem generatePlan_preserves_items (items : List Item) (a : Availability)
    (c : Int) :
    (generatePlan items a c).map PlannedTask.item = items :=
  planLoop_map_item items c

/-- C10: the first placement is scheduled 30 minutes after the invocation
instant, and each later placement is the previous one's time plus the
previous item's effective duration (60 when durationMins is missing or
zero) plus 45 minutes. -/
theorem generatePlan_schedule_recurrence (items : List Item) (a : Availability)
    (c : Int) :
    (∀ p, (generatePlan items a c).head? = some p → p.scheduledFor = c + 30) ∧
    (∀ pq ∈ (generatePlan items a c).zip (generatePlan items a c).tail,
      pq.2.scheduledFor =
        pq.1.scheduledFor + effDur pq.1.item.durationMins + 45) := by
  constructor
  · intro p hp
    cases items with
    | nil => simp [generatePlan, planLoop] at hp
    | cons it rest =>
      simp [generatePlan, planLoop] at hp
      rw [← hp]
  · exact planLoop_zip items c

/-- C10 (witness): the recurrence evaluated on the Scenario A plan — Math
is scheduled at 0+30 and Physics 60+45 minutes later, at 135. -/
theorem generatePlan_schedule_recurrence_witness :
    ((⟨taskMath, 30⟩ : PlannedTask).scheduledFor = 0 + 30) ∧
    ((⟨taskPhysics, 135⟩ : PlannedTask).scheduledFor =
      (⟨taskMath, 30⟩ : PlannedTask).scheduledFor +
        effDur (⟨taskMath, 30⟩ : PlannedTask).item.durationMins + 45) :=
  ⟨(generatePlan_schedule_recurrence [taskMath, taskPhysics] scenarioAvail 0).1
      ⟨taskMath, 30⟩ (by decide),
   (generatePlan_schedule_recurrence [taskMath, taskPhysics] scenarioAvail 0).2
      (⟨taskMath, 30⟩, ⟨taskPhysics, 135⟩) (by decide)⟩

end Claims
